import Mathlib

/-!
Verification development for the Trade2Retire signal bot (src/bot.py).

The embedding models the signal-parsing and update-reconciliation pipeline:

* `TradingSignal` embeds the Python class `TradingSignal` (bot.py lines 166-199).
* `intelligentSignalParser` embeds `intelligent_signal_parser` (bot.py lines
  265-325): the AI transport call and markdown stripping are external; the
  function here receives the outcome of `json.loads` on the cleaned response
  text as an `Except String JValue` (an `Except.error` models a
  `json.JSONDecodeError`).  Dynamic Python operations (`in`, subscription,
  `float(...)`, truthiness) are modeled by total functions into
  `Except String _`, an error modeling a raised Python exception; the
  enclosing `try/except` of the source maps every such error to `none`.
* `parse_signal_update` embeds `parse_signal_update` (bot.py lines 328-361).
* `apply_signal_update` embeds `apply_signal_update` (bot.py lines 364-423),
  with the global dictionaries `active_signals` / `closed_signals` passed as
  an explicit `BotState` and the implicit `datetime.now()` as a `Nat` clock.
  The classified-update dict is modeled at the classifier's output contract
  (`UpdateData`): a possibly-absent `action` string, a possibly-absent
  numeric `value` (an absent key and a JSON `null` both give Python `None`,
  modeled as `none`), and a possibly-absent `description` string.
* `monitor_signal_channel` embeds the dispatch logic of
  `monitor_signal_channel` (bot.py lines 937-969) for a message that passed
  the channel-id and non-empty-text gates; the two AI round trips are
  modeled as parameters (the decoded extraction response, and the decoded
  classification response per instrument).

Prices are modeled as `Rat`; no arithmetic beyond copying and equality is
performed on them in the modeled code, so floating-point rounding plays no
role in any claim.  Python object aliasing (the registry entry *is* the
mutated signal object) is made explicit by `writeback`.
-/

/-- A decoded JSON value, the possible results of `json.loads`.  Objects
produced by `json.loads` have unique keys (later duplicates overwrite
earlier ones at decode time), so association-list lookup is faithful. -/
inductive JValue where
  | null : JValue
  | bool : Bool → JValue
  | num : Rat → JValue
  | str : String → JValue
  | arr : List JValue → JValue
  | obj : List (String × JValue) → JValue

/-- Python truthiness of a decoded JSON value (`if signal_data ...`). -/
def pyTruthy : JValue → Bool
  | JValue.null => false
  | JValue.bool b => b
  | JValue.num q => if q = 0 then false else true
  | JValue.str s => if s = "" then false else true
  | JValue.arr xs => !xs.isEmpty
  | JValue.obj fs => !fs.isEmpty

/-- Python `==` between a decoded JSON value and a string (used by `in` on
lists: a string compares equal only to an equal string). -/
def jEqStrVal (x : JValue) (k : String) : Bool :=
  match x with
  | JValue.str t => t == k
  | _ => false

/-- Helper for substring search: does `needle` occur contiguously in the
character list? -/
def strContainsAux (needle : List Char) : List Char → Bool
  | [] => needle.isEmpty
  | c :: rest => needle.isPrefixOf (c :: rest) || strContainsAux needle rest

/-- Python `needle in hay` on strings: contiguous substring test. -/
def pyInStr (needle hay : String) : Bool :=
  strContainsAux needle.toList hay.toList

/-- Python `str.upper()` (the messages and symbols in play are ASCII). -/
def pyUpper (s : String) : String :=
  String.mk (s.data.map Char.toUpper)

/-- Python `str.lower()` (the messages and symbols in play are ASCII). -/
def pyLower (s : String) : String :=
  String.mk (s.data.map Char.toLower)

/-- Python `k in v` for a decoded JSON value: key membership for dicts,
element equality for lists, substring test for strings, and a `TypeError`
for the non-container types. -/
def pyContains (v : JValue) (k : String) : Except String Bool :=
  match v with
  | JValue.obj fs => Except.ok (fs.any (fun p => p.1 == k))
  | JValue.arr xs => Except.ok (xs.any (fun x => jEqStrVal x k))
  | JValue.str s => Except.ok (pyInStr k s)
  | JValue.null => Except.error "TypeError: argument of type NoneType is not iterable"
  | JValue.bool _ => Except.error "TypeError: argument of type bool is not iterable"
  | JValue.num _ => Except.error "TypeError: argument of type number is not iterable"

/-- Python `v[k]` for a string key: dict lookup (a missing key is a
`KeyError`), `TypeError` for every other decoded JSON type. -/
def pyGetItem (v : JValue) (k : String) : Except String JValue :=
  match v with
  | JValue.obj fs =>
    match fs.lookup k with
    | some x => Except.ok x
    | none => Except.error "KeyError"
  | JValue.str _ => Except.error "TypeError: string indices must be integers"
  | JValue.arr _ => Except.error "TypeError: list indices must be integers"
  | JValue.null => Except.error "TypeError: NoneType is not subscriptable"
  | JValue.bool _ => Except.error "TypeError: bool is not subscriptable"
  | JValue.num _ => Except.error "TypeError: number is not subscriptable"

/-- Decimal value of a digit list (most significant first). -/
def digitsVal (cs : List Char) : Nat :=
  cs.foldl (fun a c => a * 10 + (c.toNat - 48)) 0

/-- All characters are ASCII digits. -/
def allDigitsB (cs : List Char) : Bool :=
  cs.all Char.isDigit

/-- Mantissa part of a Python float literal: `D+`, `D+.D*` or `.D+`. -/
def parseMantissa (m : String) : Option Rat :=
  match m.splitOn "." with
  | [a] =>
    if 0 < a.length && allDigitsB a.toList then
      some ((digitsVal a.toList : Nat) : Rat)
    else none
  | [a, b] =>
    if 0 < a.length + b.length && allDigitsB a.toList && allDigitsB b.toList then
      some (((digitsVal a.toList : Nat) : Rat) +
        ((digitsVal b.toList : Nat) : Rat) / ((10 : Rat) ^ b.length))
    else none
  | _ => none

/-- Exponent part of a Python float literal: optional sign then digits. -/
def parseExpPart (s : String) : Option Int :=
  let sgn : Int := if s.startsWith "-" then -1 else 1
  let t := if s.startsWith "-" || s.startsWith "+" then s.drop 1 else s
  if 0 < t.length && allDigitsB t.toList then
    some (sgn * ((digitsVal t.toList : Nat) : Int))
  else none

/-- Python `float(s)` on a string: surrounding whitespace stripped, optional
sign, decimal mantissa, optional exponent.  (The model covers the decimal
grammar; exotic Python forms such as `inf`, `nan` and digit underscores are
treated as non-coercible, which no claim depends on.) -/
def parseFloatString (s : String) : Option Rat :=
  let t := s.trim.toLower
  let sgn : Rat := if t.startsWith "-" then -1 else 1
  let t2 := if t.startsWith "-" || t.startsWith "+" then t.drop 1 else t
  match t2.splitOn "e" with
  | [m] => (parseMantissa m).map (fun q => sgn * q)
  | [m, ex] =>
    match parseMantissa m, parseExpPart ex with
    | some q, some z => some (sgn * q * ((10 : Rat) ^ z))
    | _, _ => none
  | _ => none

/-- Display form of a price (stands in for Python float formatting inside
f-strings; no claim inspects the exact digits). -/
def pyShowRat (q : Rat) : String :=
  toString q

/-- Python `str(...)` of a decoded JSON value.  Scalars are rendered as
Python renders them; for containers the repr text is abstracted to a fixed
marker, which no claim depends on. -/
def pyStr : JValue → String
  | JValue.null => "None"
  | JValue.bool true => "True"
  | JValue.bool false => "False"
  | JValue.num q => pyShowRat q
  | JValue.str s => s
  | JValue.arr _ => "[...]"
  | JValue.obj _ => "\x7b...\x7d"

/-- Python `float(...)` of a decoded JSON value: numbers pass through,
booleans coerce to 0/1, strings are parsed, everything else raises
`TypeError`. -/
def pyFloat (v : JValue) : Except String Rat :=
  match v with
  | JValue.num q => Except.ok q
  | JValue.bool b => Except.ok (if b then 1 else 0)
  | JValue.str s =>
    match parseFloatString s with
    | some q => Except.ok q
    | none => Except.error ("ValueError: could not convert string to float: " ++ s)
  | JValue.null => Except.error "TypeError: float() argument must not be NoneType"
  | JValue.arr _ => Except.error "TypeError: float() argument must not be list"
  | JValue.obj _ => Except.error "TypeError: float() argument must not be dict"

/-- One `partial_profits` entry (bot.py lines 379-382): the level may be
Python `None` when the classified update carried no value. -/
structure PartialProfit where
  level : Option Rat
  timestamp : Nat
deriving DecidableEq

/-- One `updates_history` audit entry (timestamp, action label, detail). -/
structure HistoryEntry where
  timestamp : Nat
  action : String
  details : String
deriving DecidableEq

/-- The `TradingSignal` class (bot.py lines 166-183).  `tp` and `sl` are
`Option Rat` because the Python fields, while initialized with floats, can
later be assigned `None` by `apply_signal_update`; `entry` is never
reassigned.  `timestamp` is the creation clock value. -/
structure TradingSignal where
  instrument : String
  side : String
  entry : Rat
  tp : Option Rat
  sl : Option Rat
  timestamp : Nat
  message_id : Option Nat
  status : String
  current_profit : Rat
  hit_tp : Bool
  hit_sl : Bool
  partial_profits : List PartialProfit
  breakeven_level : Option Rat
  updates_history : List HistoryEntry
deriving DecidableEq

/-- The snapshot dictionary produced by `TradingSignal.to_dict` (bot.py
lines 185-199); note it omits `message_id` and `updates_history`. -/
structure SignalDict where
  instrument : String
  side : String
  entry : Rat
  tp : Option Rat
  sl : Option Rat
  timestamp : Nat
  status : String
  current_profit : Rat
  hit_tp : Bool
  hit_sl : Bool
  partial_profits : List PartialProfit
  breakeven_level : Option Rat
deriving DecidableEq

/-- `TradingSignal.to_dict` (bot.py lines 185-199). -/
def TradingSignal.to_dict (s : TradingSignal) : SignalDict :=
  { instrument := s.instrument
    side := s.side
    entry := s.entry
    tp := s.tp
    sl := s.sl
    timestamp := s.timestamp
    status := s.status
    current_profit := s.current_profit
    hit_tp := s.hit_tp
    hit_sl := s.hit_sl
    partial_profits := s.partial_profits
    breakeven_level := s.breakeven_level }

/-- The `TradingSignal.__init__` constructor (bot.py lines 168-183) as
called by `intelligent_signal_parser`: `message_id` defaults to `None` and
the lifecycle fields take their initial values. -/
def mkTradingSignal (instrument side : String) (entry tp sl : Rat) (now : Nat) :
    TradingSignal :=
  { instrument := instrument
    side := side
    entry := entry
    tp := some tp
    sl := some sl
    timestamp := now
    message_id := none
    status := "ACTIVE"
    current_profit := 0
    hit_tp := false
    hit_sl := false
    partial_profits := []
    breakeven_level := none
    updates_history := [] }

/-- The process-wide registries `active_signals` (instrument → record, in
insertion order) and `closed_signals` (bot.py lines 42-43). -/
structure BotState where
  active_signals : List (String × TradingSignal)
  closed_signals : List SignalDict
deriving DecidableEq

/-- A classified update as `apply_signal_update` reads it, modeled at the
classifier's output contract: `action` string (a missing key gives `none`,
read back with default `"other"`), optional numeric `value` (a missing key
and JSON `null` both give Python `None`, modeled `none`), optional
`description`. -/
structure UpdateData where
  action : Option String
  value : Option Rat
  description : Option String
deriving DecidableEq

/-- Display form of a possibly-`None` price inside the f-strings of
`apply_signal_update` (Python renders `None` as the text `None`). -/
def pyShowOptRat : Option Rat → String
  | none => "None"
  | some q => pyShowRat q

/-- Result of one `apply_signal_update` call: the mutated signal object,
the new global state, and the returned status string. -/
structure ApplyResult where
  signal : TradingSignal
  state : BotState
  status : String
deriving DecidableEq

/-- `all(k in signal_data for k in ['instrument','side','entry','tp','sl'])`
(bot.py line 307), with Python's short-circuit: once a membership test is
`False` the later ones are not evaluated, and a raised `TypeError` aborts
the generator. -/
def allKeysCheck (v : JValue) : Except String Bool :=
  match pyContains v "instrument" with
  | Except.error e => Except.error e
  | Except.ok false => Except.ok false
  | Except.ok true =>
    match pyContains v "side" with
    | Except.error e => Except.error e
    | Except.ok false => Except.ok false
    | Except.ok true =>
      match pyContains v "entry" with
      | Except.error e => Except.error e
      | Except.ok false => Except.ok false
      | Except.ok true =>
        match pyContains v "tp" with
        | Except.error e => Except.error e
        | Except.ok false => Except.ok false
        | Except.ok true => pyContains v "sl"

/-- The body of `intelligent_signal_parser`'s `try` block after the AI round
trip (bot.py lines 305-318), with raised exceptions surfaced as
`Except.error`.  The input is the outcome of `json.loads` on the cleaned
response text; field accesses and coercions follow Python's evaluation
order (instrument, side, then each numeric get directly followed by its
`float` coercion). -/
def intelligentSignalTry (raw : Except String JValue) (now : Nat) :
    Except String (Option TradingSignal) :=
  match raw with
  | Except.error e => Except.error e
  | Except.ok signal_data =>
    if pyTruthy signal_data then
      match allKeysCheck signal_data with
      | Except.error e => Except.error e
      | Except.ok false => Except.ok none
      | Except.ok true =>
        match pyGetItem signal_data "instrument" with
        | Except.error e => Except.error e
        | Except.ok vi =>
          match pyGetItem signal_data "side" with
          | Except.error e => Except.error e
          | Except.ok vs =>
            match pyGetItem signal_data "entry" with
            | Except.error e => Except.error e
            | Except.ok ve =>
              match pyFloat ve with
              | Except.error e => Except.error e
              | Except.ok qe =>
                match pyGetItem signal_data "tp" with
                | Except.error e => Except.error e
                | Except.ok vt =>
                  match pyFloat vt with
                  | Except.error e => Except.error e
                  | Except.ok qt =>
                    match pyGetItem signal_data "sl" with
                    | Except.error e => Except.error e
                    | Except.ok vl =>
                      match pyFloat vl with
                      | Except.error e => Except.error e
                      | Except.ok ql =>
                        Except.ok (some (mkTradingSignal
                          (pyUpper (pyStr vi)) (pyUpper (pyStr vs))
                          qe qt ql now))
    else Except.ok none

/-- `intelligent_signal_parser` (bot.py lines 265-325): the surrounding
`try/except json.JSONDecodeError / except Exception` maps every raised
error to `None`. -/
def intelligentSignalParser (raw : Except String JValue) (now : Nat) :
    Option TradingSignal :=
  match intelligentSignalTry raw now with
  | Except.ok r => r
  | Except.error _ => none

/-- The body of `parse_signal_update`'s `try` block after the AI round trip
(bot.py lines 354-357): decode, then `return update_data if update_data
else None`. -/
def parseSignalUpdateTry (raw : Except String JValue) :
    Except String (Option JValue) :=
  match raw with
  | Except.error e => Except.error e
  | Except.ok v => Except.ok (if pyTruthy v then some v else none)

/-- `parse_signal_update` (bot.py lines 328-361): the `except Exception`
maps every raised error to `None`. -/
def parse_signal_update (raw : Except String JValue) : Option JValue :=
  match parseSignalUpdateTry raw with
  | Except.ok r => r
  | Except.error _ => none

/-- Python `key in dict` on the active registry. -/
def dictContains (d : List (String × TradingSignal)) (k : String) : Bool :=
  d.any (fun p => p.1 == k)

/-- Python `dict[key] = value` on an existing key: the entry keeps its
position, its value is replaced. -/
def dictSet (d : List (String × TradingSignal)) (k : String) (v : TradingSignal) :
    List (String × TradingSignal) :=
  d.map (fun p => if p.1 == k then (k, v) else p)

/-- Python `del dict[key]`. -/
def dictErase (d : List (String × TradingSignal)) (k : String) :
    List (String × TradingSignal) :=
  d.filter (fun p => p.1 != k)

/-- Python `dict[key] = value`: replace if the key exists, else append. -/
def dictInsert (d : List (String × TradingSignal)) (k : String) (v : TradingSignal) :
    List (String × TradingSignal) :=
  if dictContains d k then dictSet d k v else d ++ [(k, v)]

/-- `apply_signal_update` (bot.py lines 364-423).  `update.get('action',
'other')` is `update.action.getD "other"`; `update.get('value')` is
`update.value`.  The mutated signal object, the new global state and the
returned status string are all made explicit.  Note that in the source the
final `else` branch (covering `add_position`, `other` and any unrecognized
action) mutates nothing and appends nothing to `updates_history`. -/
def apply_signal_update (st : BotState) (signal : TradingSignal)
    (update : UpdateData) (now : Nat) : ApplyResult :=
  let action := update.action.getD "other"
  let value := update.value
  if action = "breakeven" then
    let s := { signal with
      breakeven_level := some signal.entry
      updates_history := signal.updates_history ++
        [{ timestamp := now
           action := "BREAKEVEN SET"
           details := "Stop loss moved to entry at " ++ pyShowRat signal.entry }] }
    { signal := s
      state := st
      status := "✅ " ++ signal.instrument ++ " - Stop loss moved to breakeven (" ++
        pyShowRat signal.entry ++ ")" }
  else if action = "take_partial_profit" then
    let s := { signal with
      partial_profits := signal.partial_profits ++
        [{ level := value, timestamp := now }]
      updates_history := signal.updates_history ++
        [{ timestamp := now
           action := "PARTIAL PROFIT"
           details := "Partial profit taken at " ++ pyShowOptRat value }] }
    { signal := s
      state := st
      status := "🎯 " ++ signal.instrument ++ " - Partial profit taken at " ++
        pyShowOptRat value ++ "!" }
  else if action = "move_stop_loss" then
    let old_sl := signal.sl
    let s := { signal with
      sl := value
      updates_history := signal.updates_history ++
        [{ timestamp := now
           action := "SL MOVED"
           details := "Stop loss moved from " ++ pyShowOptRat old_sl ++ " to " ++
             pyShowOptRat value }] }
    { signal := s
      state := st
      status := "🛡️ " ++ signal.instrument ++ " - Stop loss moved to " ++
        pyShowOptRat value ++ " (was " ++ pyShowOptRat old_sl ++ ")" }
  else if action = "move_take_profit" then
    let old_tp := signal.tp
    let s := { signal with
      tp := value
      updates_history := signal.updates_history ++
        [{ timestamp := now
           action := "TP MOVED"
           details := "Take profit moved from " ++ pyShowOptRat old_tp ++ " to " ++
             pyShowOptRat value }] }
    { signal := s
      state := st
      status := "📈 " ++ signal.instrument ++ " - Take profit moved to " ++
        pyShowOptRat value ++ " (was " ++ pyShowOptRat old_tp ++ ")" }
  else if action = "close_trade" then
    let s := { signal with
      status := "CLOSED"
      updates_history := signal.updates_history ++
        [{ timestamp := now
           action := "TRADE CLOSED"
           details := "Signal closed" }] }
    if dictContains st.active_signals s.instrument then
      { signal := s
        state := { active_signals := dictErase st.active_signals s.instrument
                   closed_signals := st.closed_signals ++ [s.to_dict] }
        status := "❌ " ++ signal.instrument ++ " - Trade closed!" }
    else
      { signal := s
        state := st
        status := "❌ " ++ signal.instrument ++ " - Trade closed!" }
  else
    { signal := signal
      state := st
      status := "📝 " ++ signal.instrument ++ " - Update received: " ++
        update.description.getD "trade update" }

/-- Python object aliasing made explicit: the signal passed to
`apply_signal_update` in `monitor_signal_channel` is the registry's own
entry at key `k`, so its mutation is visible in the registry (unless
`close_trade` already deleted the key). -/
def writeback (r : ApplyResult) (k : String) : BotState :=
  if dictContains r.state.active_signals k then
    { r.state with active_signals := dictSet r.state.active_signals k r.signal }
  else r.state

/-- The fallback loop of `monitor_signal_channel` (bot.py lines 961-969):
scan the snapshot of active keys; on a case-insensitive substring match,
classify; apply and stop only when the classification is truthy with an
action different from `'other'` (the `break` sits inside that `if`, so a
match classified as `other` or `None` lets the loop continue).  The
snapshot value equals the current registry value because no mutation
happens before the first applied update. -/
def scanUpdate (st : BotState) (msgLower : String)
    (classify : String → Option UpdateData) (now : Nat) :
    List (String × TradingSignal) → BotState
  | [] => st
  | (instrument, existing) :: rest =>
    if pyInStr (pyLower instrument) msgLower then
      match classify instrument with
      | some upd =>
        if upd.action ≠ some "other" then
          writeback (apply_signal_update st existing upd now) instrument
        else scanUpdate st msgLower classify now rest
      | none => scanUpdate st msgLower classify now rest
    else scanUpdate st msgLower classify now rest

/-- The dispatch of `monitor_signal_channel` (bot.py lines 937-969) on the
already-computed extraction outcome: a parsed signal for an already-active
instrument is re-routed through the classifier (`update_data.get('action')
!= 'other'` lets a missing action through); a parsed signal for a fresh
instrument is registered; a failed parse falls back to the scan loop. -/
def monitorDispatch (st : BotState) (message_text : String)
    (parsed : Option TradingSignal) (classify : String → Option UpdateData)
    (now : Nat) : BotState :=
  match parsed with
  | some signal =>
    if dictContains st.active_signals signal.instrument then
      match classify signal.instrument with
      | some update_data =>
        if update_data.action ≠ some "other" then
          match List.lookup signal.instrument st.active_signals with
          | some existing_signal =>
            writeback (apply_signal_update st existing_signal update_data now)
              signal.instrument
          | none => st
        else st
      | none => st
    else { st with active_signals := dictInsert st.active_signals signal.instrument signal }
  | none => scanUpdate st (pyLower message_text) classify now st.active_signals

/-- `monitor_signal_channel` (bot.py lines 923-969) for a non-empty text
post on the signal channel: run the extraction (whose decoded AI response
is `rawE`), then dispatch. -/
def monitor_signal_channel (st : BotState) (message_text : String)
    (rawE : Except String JValue) (classify : String → Option UpdateData)
    (now : Nat) : BotState :=
  monitorDispatch st message_text (intelligentSignalParser rawE now) classify now

/-- The private-chat signal branch of `handle_message` (bot.py lines
748-754) for a message that passed the earlier gates (non-empty text,
mention stripped, rate limit passed, chat type `private`): the message is
fed to `intelligent_signal_parser` (whose decoded AI response is `rawE`)
and, on a successful parse, the candidate is stored with
`active_signals[signal.instrument] = signal` — unconditionally, with no
already-active check and no Update-Classifier routing (the reply text goes
to the transport layer).  On a failed parse the handler falls through to
conversational handling, which does not touch the registry. -/
def handle_message (st : BotState) (rawE : Except String JValue) (now : Nat) :
    BotState :=
  match intelligentSignalParser rawE now with
  | some signal =>
    { st with active_signals := dictInsert st.active_signals signal.instrument signal }
  | none => st

/-! Concrete fixtures used by witnesses and counterexamples. -/

/-- An active EURUSD record as produced by the extraction path. -/
def sig0 : TradingSignal := mkTradingSignal "EURUSD" "BUY" 100 110 95 0

/-- A registry holding only the EURUSD record. -/
def st0 : BotState := { active_signals := [("EURUSD", sig0)], closed_signals := [] }

/-- Classified update: move to breakeven. -/
def updB : UpdateData := { action := some "breakeven", value := none, description := none }

/-- Classified update: move the stop loss, but with the numeric value absent. -/
def updSL : UpdateData := { action := some "move_stop_loss", value := none, description := none }

/-- Classified update: close the trade. -/
def updClose : UpdateData :=
  { action := some "close_trade", value := none, description := some "closing" }

/-- Classified update: add to the position (routed to the final else branch). -/
def updOther : UpdateData :=
  { action := some "add_position", value := none, description := some "adding to position" }

/-- A decoded extraction response naming eurusd with all five fields. -/
def rawEurusd : Except String JValue :=
  Except.ok (JValue.obj [("instrument", JValue.str "eurusd"), ("side", JValue.str "buy"),
    ("entry", JValue.num 100), ("tp", JValue.num 110), ("sl", JValue.num 95)])

/-- A classification oracle answering breakeven for every instrument. -/
def classifyB : String → Option UpdateData := fun _ => some updB

/-- An active GBPUSD record. -/
def sigG : TradingSignal := mkTradingSignal "GBPUSD" "SELL" 200 190 210 0

/-- A registry holding EURUSD first and GBPUSD second. -/
def st2 : BotState :=
  { active_signals := [("EURUSD", sig0), ("GBPUSD", sigG)], closed_signals := [] }

/-- A channel message naming both instruments in mixed case. -/
def msgBoth : String := "EuRuSd and GBPUSD look done, close it"

/-- A classification oracle answering `other` for EURUSD and `close_trade`
for everything else. -/
def classifySplit : String → Option UpdateData := fun k =>
  if k = "EURUSD" then some { action := some "other", value := none, description := some "note" }
  else some updClose

/-- A decoded extraction response modeling a `json.JSONDecodeError` on
non-JSON-shaped text. -/
def rawBad : Except String JValue := Except.error "Expecting value: line 1 column 1 (char 0)"

/-- A decoded extraction response carrying a side outside BUY/SELL. -/
def rawLong : Except String JValue :=
  Except.ok (JValue.obj [("instrument", JValue.str "eurusd"), ("side", JValue.str "long"),
    ("entry", JValue.num 1), ("tp", JValue.num 2), ("sl", JValue.num 3)])

/-- The record the extractor builds from `rawLong`. -/
def sigLong : TradingSignal := mkTradingSignal "EURUSD" "LONG" 1 2 3 0

/-- A decoded extraction response for a second, different full EURUSD
signal (opposite side, different prices). -/
def rawEurusdSell : Except String JValue :=
  Except.ok (JValue.obj [("instrument", JValue.str "eurusd"), ("side", JValue.str "sell"),
    ("entry", JValue.num 1), ("tp", JValue.num 2), ("sl", JValue.num 3)])

/-- The candidate record the extractor builds from `rawEurusdSell` at
clock 1. -/
def sigSell : TradingSignal := mkTradingSignal "EURUSD" "SELL" 1 2 3 1

/-- Actions whose branch in `apply_signal_update` appends an audit entry. -/
def isAuditedAction (a : String) : Prop :=
  a = "breakeven" ∨ a = "take_partial_profit" ∨ a = "move_stop_loss" ∨
    a = "move_take_profit" ∨ a = "close_trade"

theorem lookup_erase_self (d : List (String × TradingSignal)) (k : String) :
    List.lookup k (dictErase d k) = none := by
  rw [List.lookup_eq_none_iff]
  intro p hp
  simp only [dictErase, List.mem_filter, bne_iff_ne] at hp
  simp only [bne_iff_ne]
  exact fun he => hp.2 he.symm

theorem lookup_mem (d : List (String × TradingSignal)) (k : String)
    (v : TradingSignal) (h : List.lookup k d = some v) : (k, v) ∈ d := by
  rw [List.lookup_eq_some_iff] at h
  obtain ⟨l1, l2, rfl, _⟩ := h
  simp

theorem dictContains_lookup (d : List (String × TradingSignal)) (k : String)
    (h : dictContains d k = true) : ∃ v, List.lookup k d = some v := by
  rw [← Option.isSome_iff_exists]
  rw [List.lookup_isSome_iff]
  simp only [dictContains, List.any_eq_true, beq_iff_eq] at h
  obtain ⟨p, hp, hk⟩ := h
  exact ⟨p, hp, by simp [hk]⟩

theorem dictContains_erase_self (d : List (String × TradingSignal)) (k : String) :
    dictContains (dictErase d k) k = false := by
  simp only [dictContains, dictErase]
  rw [List.any_eq_false]
  intro p hp
  simp only [List.mem_filter, bne_iff_ne] at hp
  simp only [beq_iff_eq]
  exact hp.2

theorem lookup_dictSet_self (d : List (String × TradingSignal)) (k : String)
    (v : TradingSignal) (h : dictContains d k = true) :
    List.lookup k (dictSet d k v) = some v := by
  induction d with
  | nil => simp [dictContains] at h
  | cons p t ih =>
    obtain ⟨pk, pv⟩ := p
    by_cases hp : pk = k
    · subst hp
      simp [dictSet]
    · have hb : (pk == k) = false := beq_eq_false_iff_ne.mpr hp
      have hb2 : (k == pk) = false := beq_eq_false_iff_ne.mpr (fun he => hp he.symm)
      have ht : dictContains t k = true := by
        simpa [dictContains, List.any_cons, hb] using h
      simpa [dictSet, hp, List.lookup_cons, hb2] using ih ht

theorem mapfst_dictSet (d : List (String × TradingSignal)) (k : String)
    (v : TradingSignal) : (dictSet d k v).map Prod.fst = d.map Prod.fst := by
  induction d with
  | nil => rfl
  | cons p t ih =>
    obtain ⟨pk, pv⟩ := p
    by_cases hp : pk = k
    · subst hp
      simp only [dictSet, List.map_cons] at ih ⊢
      simpa using ih
    · have hb : (pk == k) = false := beq_eq_false_iff_ne.mpr hp
      simp only [dictSet, List.map_cons] at ih ⊢
      simp only [hb, Bool.false_eq_true, if_false]
      rw [ih]

theorem nodup_erase_fst (d : List (String × TradingSignal)) (k : String)
    (h : (d.map Prod.fst).Nodup) : ((dictErase d k).map Prod.fst).Nodup := by
  exact h.sublist (List.Sublist.map Prod.fst (List.filter_sublist d))

theorem ne_empty_of_append (a b : String) (h : a ≠ "") : a ++ b ≠ "" := by
  intro hab
  apply h
  cases a with
  | mk la =>
    cases b with
    | mk lb =>
      have hd : la ++ lb = ([] : List Char) := congrArg String.data hab
      have ha : la = [] := (List.append_eq_nil.mp hd).1
      rw [ha]

theorem apply_core_frame (st : BotState) (sig : TradingSignal) (upd : UpdateData)
    (now : Nat) :
    (apply_signal_update st sig upd now).signal.instrument = sig.instrument ∧
    (apply_signal_update st sig upd now).signal.side = sig.side ∧
    (apply_signal_update st sig upd now).signal.entry = sig.entry ∧
    (apply_signal_update st sig upd now).signal.timestamp = sig.timestamp := by
  unfold apply_signal_update
  dsimp only
  split_ifs <;> exact ⟨rfl, rfl, rfl, rfl⟩

theorem apply_state_cases (st : BotState) (sig : TradingSignal) (upd : UpdateData)
    (now : Nat) :
    (apply_signal_update st sig upd now).state = st ∨
    ((apply_signal_update st sig upd now).state.active_signals =
        dictErase st.active_signals sig.instrument ∧
      (apply_signal_update st sig upd now).state.closed_signals =
        st.closed_signals ++ [(apply_signal_update st sig upd now).signal.to_dict]) := by
  unfold apply_signal_update
  dsimp only
  split_ifs <;> first
    | exact Or.inl rfl
    | exact Or.inr ⟨rfl, rfl⟩

theorem apply_status_ne_empty (st : BotState) (sig : TradingSignal) (upd : UpdateData)
    (now : Nat) : (apply_signal_update st sig upd now).status ≠ "" := by
  unfold apply_signal_update
  dsimp only
  split_ifs <;> (repeat' apply ne_empty_of_append) <;> decide


/-- C3: at the failing input (a `move_stop_loss` update whose numeric value is
absent), `apply_signal_update` writes the missing value (Python `None`) into
the numeric field `sl` instead of leaving `sl` unchanged, while still
appending the audit entry.  This exhibits the latent bug the specification
instructs implementers not to reproduce. -/
theorem c3_missing_value_writes_none :
    sig0.sl = some 95 ∧
    updSL.action = some "move_stop_loss" ∧ updSL.value = none ∧
    (apply_signal_update st0 sig0 updSL 1).signal.sl = none ∧
    (apply_signal_update st0 sig0 updSL 1).signal.updates_history.length =
      sig0.updates_history.length + 1 :=
  ⟨rfl, rfl, rfl, rfl, rfl⟩

/-- C5 (amended): one application of `apply_signal_update` appends exactly one
audit entry (preserving all prior entries) for the five recognized mutating
actions, but for `add_position`, `other` and any unrecognized action the
final else branch appends nothing and `updates_history` is unchanged. -/
theorem c5_audit_trail (st : BotState) (sig : TradingSignal) (upd : UpdateData)
    (now : Nat) :
    (isAuditedAction (upd.action.getD "other") →
      ∃ e, (apply_signal_update st sig upd now).signal.updates_history =
        sig.updates_history ++ [e]) ∧
    (¬ isAuditedAction (upd.action.getD "other") →
      (apply_signal_update st sig upd now).signal.updates_history =
        sig.updates_history) := by
  unfold apply_signal_update isAuditedAction
  dsimp only
  split_ifs with h1 h2 h3 h4 h5 h6
  · exact ⟨fun _ => ⟨_, rfl⟩, fun hn => absurd (Or.inl h1) hn⟩
  · exact ⟨fun _ => ⟨_, rfl⟩, fun hn => absurd (Or.inr (Or.inl h2)) hn⟩
  · exact ⟨fun _ => ⟨_, rfl⟩, fun hn => absurd (Or.inr (Or.inr (Or.inl h3))) hn⟩
  · exact ⟨fun _ => ⟨_, rfl⟩, fun hn => absurd (Or.inr (Or.inr (Or.inr (Or.inl h4)))) hn⟩
  · exact ⟨fun _ => ⟨_, rfl⟩, fun hn => absurd (Or.inr (Or.inr (Or.inr (Or.inr h5)))) hn⟩
  · exact ⟨fun _ => ⟨_, rfl⟩, fun hn => absurd (Or.inr (Or.inr (Or.inr (Or.inr h5)))) hn⟩
  · refine ⟨fun hy => ?_, fun _ => rfl⟩
    rcases hy with h | h | h | h | h <;> contradiction

/-- C5 counterexample: an `add_position` update leaves `updates_history` at
its previous length, refuting "increases the length by exactly one" for that
action. -/
theorem c5_counterexample :
    updOther.action = some "add_position" ∧
    (apply_signal_update st0 sig0 updOther 3).signal.updates_history.length =
      sig0.updates_history.length ∧
    (apply_signal_update st0 sig0 updOther 3).signal.updates_history.length ≠
      sig0.updates_history.length + 1 :=
  ⟨rfl, rfl, by decide⟩

/-- C5 witness: the amended theorem applied to a concrete breakeven update. -/
theorem c5_audit_trail_witness :
    ∃ e, (apply_signal_update st0 sig0 updB 7).signal.updates_history =
      sig0.updates_history ++ [e] :=
  (c5_audit_trail st0 sig0 updB 7).1 (Or.inl rfl)

/-- C4: `close_trade` on a registered record sets its status to CLOSED,
removes its instrument from the active registry, appends exactly one snapshot
of the (mutated) record to closed-history, and a second `close_trade` on the
resulting state changes neither the active registry nor closed-history. -/
theorem c4_close_trade (st : BotState) (sig : TradingSignal) (upd : UpdateData)
    (now now2 : Nat) (hact : upd.action = some "close_trade")
    (hin : dictContains st.active_signals sig.instrument = true) :
    (apply_signal_update st sig upd now).signal.status = "CLOSED" ∧
    (apply_signal_update st sig upd now).state.active_signals =
      dictErase st.active_signals sig.instrument ∧
    dictContains (apply_signal_update st sig upd now).state.active_signals
      sig.instrument = false ∧
    (apply_signal_update st sig upd now).state.closed_signals =
      st.closed_signals ++ [(apply_signal_update st sig upd now).signal.to_dict] ∧
    (apply_signal_update (apply_signal_update st sig upd now).state
        (apply_signal_update st sig upd now).signal upd now2).state =
      (apply_signal_update st sig upd now).state := by
  have h3 := dictContains_erase_self st.active_signals sig.instrument
  simp [apply_signal_update, hact, hin, h3, TradingSignal.to_dict]

/-- C4 witness: the theorem applied to the concrete EURUSD registry. -/
theorem c4_close_trade_witness :
    (apply_signal_update st0 sig0 updClose 1).signal.status = "CLOSED" ∧
    (apply_signal_update st0 sig0 updClose 1).state.active_signals =
      dictErase st0.active_signals sig0.instrument ∧
    dictContains (apply_signal_update st0 sig0 updClose 1).state.active_signals
      sig0.instrument = false ∧
    (apply_signal_update st0 sig0 updClose 1).state.closed_signals =
      st0.closed_signals ++ [(apply_signal_update st0 sig0 updClose 1).signal.to_dict] ∧
    (apply_signal_update (apply_signal_update st0 sig0 updClose 1).state
        (apply_signal_update st0 sig0 updClose 1).signal updClose 2).state =
      (apply_signal_update st0 sig0 updClose 1).state :=
  c4_close_trade st0 sig0 updClose 1 2 rfl rfl

/-- C9: `apply_signal_update` never changes `instrument`, `side`, `entry` or
the creation timestamp; `breakeven` leaves `sl`, `tp`, `partial_profits` and
`status` unchanged; `move_stop_loss` leaves `tp`, `breakeven_level`,
`partial_profits` and `status` unchanged; `take_partial_profit` leaves
`entry`, `tp`, `sl` and `status` unchanged; and the call returns a non-empty
human-readable status string. -/
theorem c9_frame_conditions (st : BotState) (sig : TradingSignal)
    (upd : UpdateData) (now : Nat) :
    (apply_signal_update st sig upd now).signal.instrument = sig.instrument ∧
    (apply_signal_update st sig upd now).signal.side = sig.side ∧
    (apply_signal_update st sig upd now).signal.entry = sig.entry ∧
    (apply_signal_update st sig upd now).signal.timestamp = sig.timestamp ∧
    (upd.action = some "breakeven" →
      (apply_signal_update st sig upd now).signal.sl = sig.sl ∧
      (apply_signal_update st sig upd now).signal.tp = sig.tp ∧
      (apply_signal_update st sig upd now).signal.partial_profits = sig.partial_profits ∧
      (apply_signal_update st sig upd now).signal.status = sig.status) ∧
    (upd.action = some "move_stop_loss" →
      (apply_signal_update st sig upd now).signal.tp = sig.tp ∧
      (apply_signal_update st sig upd now).signal.breakeven_level = sig.breakeven_level ∧
      (apply_signal_update st sig upd now).signal.partial_profits = sig.partial_profits ∧
      (apply_signal_update st sig upd now).signal.status = sig.status) ∧
    (upd.action = some "take_partial_profit" →
      (apply_signal_update st sig upd now).signal.entry = sig.entry ∧
      (apply_signal_update st sig upd now).signal.tp = sig.tp ∧
      (apply_signal_update st sig upd now).signal.sl = sig.sl ∧
      (apply_signal_update st sig upd now).signal.status = sig.status) ∧
    (apply_signal_update st sig upd now).status ≠ "" := by
  obtain ⟨hi, hs, he, ht⟩ := apply_core_frame st sig upd now
  refine ⟨hi, hs, he, ht, ?_, ?_, ?_, apply_status_ne_empty st sig upd now⟩
  · intro h
    simp [apply_signal_update, h]
  · intro h
    simp [apply_signal_update, h]
  · intro h
    simp [apply_signal_update, h]

/-- C9 witness: the frame conditions applied to a concrete breakeven update. -/
theorem c9_frame_conditions_witness :
    (apply_signal_update st0 sig0 updB 7).signal.entry = sig0.entry ∧
    ((apply_signal_update st0 sig0 updB 7).signal.sl = sig0.sl ∧
      (apply_signal_update st0 sig0 updB 7).signal.tp = sig0.tp ∧
      (apply_signal_update st0 sig0 updB 7).signal.partial_profits = sig0.partial_profits ∧
      (apply_signal_update st0 sig0 updB 7).signal.status = sig0.status) ∧
    (apply_signal_update st0 sig0 updB 7).status ≠ "" := by
  obtain ⟨h1, h2, h3, h4, h5, h6, h7, h8⟩ := c9_frame_conditions st0 sig0 updB 7
  exact ⟨h3, h5 rfl, h8⟩

/-- C8: a breakeven update sets `breakeven_level` to the record's entry price,
appends exactly one audit entry, leaves the registry and the record's status
untouched (so an ACTIVE record stays ACTIVE); no action of the reconciler
un-sets a present `breakeven_level`; the entry price is immutable under every
action, so reapplying breakeven yields the same `breakeven_level`. -/
theorem c8_breakeven (st : BotState) (sig : TradingSignal) (upd : UpdateData)
    (now now2 : Nat) (hact : upd.action = some "breakeven")
    (hstatus : sig.status = "ACTIVE") :
    (apply_signal_update st sig upd now).signal.breakeven_level = some sig.entry ∧
    (apply_signal_update st sig upd now).signal.updates_history =
      sig.updates_history ++
        [{ timestamp := now
           action := "BREAKEVEN SET"
           details := "Stop loss moved to entry at " ++ pyShowRat sig.entry }] ∧
    (apply_signal_update st sig upd now).state = st ∧
    (apply_signal_update st sig upd now).signal.status = "ACTIVE" ∧
    (∀ stx sigx updx nowx, (sigx.breakeven_level).isSome = true →
      ((apply_signal_update stx sigx updx nowx).signal.breakeven_level).isSome = true) ∧
    (∀ stx updx nowx,
      (apply_signal_update stx (apply_signal_update st sig upd now).signal
        updx nowx).signal.entry = sig.entry) ∧
    (apply_signal_update (apply_signal_update st sig upd now).state
        (apply_signal_update st sig upd now).signal upd now2).signal.breakeven_level =
      some sig.entry := by
  refine ⟨?_, ?_, ?_, ?_, ?_, ?_, ?_⟩
  · simp [apply_signal_update, hact]
  · simp [apply_signal_update, hact]
  · simp [apply_signal_update, hact]
  · simp [apply_signal_update, hact, hstatus]
  · intro stx sigx updx nowx hx
    unfold apply_signal_update
    dsimp only
    split_ifs <;> simp_all
  · intro stx updx nowx
    have h := (apply_core_frame stx (apply_signal_update st sig upd now).signal updx nowx).2.2.1
    rw [h]
    exact (apply_core_frame st sig upd now).2.2.1
  · have he := (apply_core_frame st sig upd now).2.2.1
    generalize hI : apply_signal_update st sig upd now = r at he ⊢
    simp [apply_signal_update, hact, he]

/-- C8 witness: the theorem applied to the concrete EURUSD record. -/
theorem c8_breakeven_witness :
    (apply_signal_update st0 sig0 updB 1).signal.breakeven_level = some sig0.entry ∧
    (apply_signal_update st0 sig0 updB 1).state = st0 ∧
    (apply_signal_update st0 sig0 updB 1).signal.status = "ACTIVE" ∧
    (apply_signal_update (apply_signal_update st0 sig0 updB 1).state
        (apply_signal_update st0 sig0 updB 1).signal updB 2).signal.breakeven_level =
      some sig0.entry := by
  obtain ⟨h1, h2, h3, h4, h5, h6, h7⟩ := c8_breakeven st0 sig0 updB 1 2 rfl rfl
  exact ⟨h1, h3, h4, h7⟩

theorem allKeys_ok_true (v : JValue) (h : allKeysCheck v = Except.ok true) :
    pyContains v "instrument" = Except.ok true ∧
    pyContains v "side" = Except.ok true ∧
    pyContains v "entry" = Except.ok true ∧
    pyContains v "tp" = Except.ok true ∧
    pyContains v "sl" = Except.ok true := by
  unfold allKeysCheck at h
  rcases h1 : pyContains v "instrument" with e | b <;> rw [h1] at h
  · cases h
  · cases b with
    | false => cases h
    | true =>
      rcases h2 : pyContains v "side" with e | b <;> rw [h2] at h
      · cases h
      · cases b with
        | false => cases h
        | true =>
          rcases h3 : pyContains v "entry" with e | b <;> rw [h3] at h
          · cases h
          · cases b with
            | false => cases h
            | true =>
              rcases h4 : pyContains v "tp" with e | b <;> rw [h4] at h
              · cases h
              · cases b with
                | false => cases h
                | true => exact ⟨rfl, rfl, rfl, rfl, h⟩

theorem parser_some_shape (raw : Except String JValue) (now : Nat)
    (sig : TradingSignal) (h : intelligentSignalParser raw now = some sig) :
    ∃ v vi vs ve vt vl qe qt ql,
      raw = Except.ok v ∧ pyTruthy v = true ∧ allKeysCheck v = Except.ok true ∧
      pyGetItem v "instrument" = Except.ok vi ∧
      pyGetItem v "side" = Except.ok vs ∧
      pyGetItem v "entry" = Except.ok ve ∧ pyFloat ve = Except.ok qe ∧
      pyGetItem v "tp" = Except.ok vt ∧ pyFloat vt = Except.ok qt ∧
      pyGetItem v "sl" = Except.ok vl ∧ pyFloat vl = Except.ok ql ∧
      sig = mkTradingSignal (pyUpper (pyStr vi)) (pyUpper (pyStr vs)) qe qt ql now := by
  cases raw with
  | error e => simp [intelligentSignalParser, intelligentSignalTry] at h
  | ok v =>
    by_cases hT : pyTruthy v = true
    · rcases hA : allKeysCheck v with e | b
      · simp [intelligentSignalParser, intelligentSignalTry, hT, hA] at h
      · cases b with
        | false => simp [intelligentSignalParser, intelligentSignalTry, hT, hA] at h
        | true =>
          rcases h1 : pyGetItem v "instrument" with e | vi
          · simp [intelligentSignalParser, intelligentSignalTry, hT, hA, h1] at h
          · rcases h2 : pyGetItem v "side" with e | vs
            · simp [intelligentSignalParser, intelligentSignalTry, hT, hA, h1, h2] at h
            · rcases h3 : pyGetItem v "entry" with e | ve
              · simp [intelligentSignalParser, intelligentSignalTry, hT, hA, h1, h2, h3] at h
              · rcases hf1 : pyFloat ve with e | qe
                · simp [intelligentSignalParser, intelligentSignalTry, hT, hA, h1, h2, h3,
                    hf1] at h
                · rcases h4 : pyGetItem v "tp" with e | vt
                  · simp [intelligentSignalParser, intelligentSignalTry, hT, hA, h1, h2, h3,
                      hf1, h4] at h
                  · rcases hf2 : pyFloat vt with e | qt
                    · simp [intelligentSignalParser, intelligentSignalTry, hT, hA, h1, h2,
                        h3, hf1, h4, hf2] at h
                    · rcases h5 : pyGetItem v "sl" with e | vl
                      · simp [intelligentSignalParser, intelligentSignalTry, hT, hA, h1, h2,
                          h3, hf1, h4, hf2, h5] at h
                      · rcases hf3 : pyFloat vl with e | ql
                        · simp [intelligentSignalParser, intelligentSignalTry, hT, hA, h1,
                            h2, h3, hf1, h4, hf2, h5, hf3] at h
                        · simp only [intelligentSignalParser, intelligentSignalTry, hT,
                            if_true, hA, h1, h2, h3, hf1, h4, hf2, h5, hf3,
                            Option.some.injEq] at h
                          exact ⟨v, vi, vs, ve, vt, vl, qe, qt, ql, rfl, hT, hA,
                            h1, h2, h3, hf1, h4, hf2, h5, hf3, h.symm⟩
    · simp [intelligentSignalParser, intelligentSignalTry, hT] at h

/-- C2: the Extractor is all-or-nothing: for every decoded capability
response it either returns no signal, or all five fields `instrument`,
`side`, `entry`, `tp`, `sl` are present, the three numeric ones coerce to
floats, and the result is exactly the fully-populated record built from
those values — never a partially-populated record. -/
theorem c2_all_or_nothing (raw : Except String JValue) (now : Nat) :
    intelligentSignalParser raw now = none ∨
    ∃ v vi vs ve vt vl qe qt ql,
      raw = Except.ok v ∧
      pyContains v "instrument" = Except.ok true ∧
      pyContains v "side" = Except.ok true ∧
      pyContains v "entry" = Except.ok true ∧
      pyContains v "tp" = Except.ok true ∧
      pyContains v "sl" = Except.ok true ∧
      pyGetItem v "instrument" = Except.ok vi ∧
      pyGetItem v "side" = Except.ok vs ∧
      pyGetItem v "entry" = Except.ok ve ∧ pyFloat ve = Except.ok qe ∧
      pyGetItem v "tp" = Except.ok vt ∧ pyFloat vt = Except.ok qt ∧
      pyGetItem v "sl" = Except.ok vl ∧ pyFloat vl = Except.ok ql ∧
      intelligentSignalParser raw now =
        some (mkTradingSignal (pyUpper (pyStr vi)) (pyUpper (pyStr vs)) qe qt ql now) := by
  rcases hp : intelligentSignalParser raw now with _ | sig
  · exact Or.inl rfl
  · right
    obtain ⟨v, vi, vs, ve, vt, vl, qe, qt, ql, hraw, hT, hA, h1, h2, h3, hf1, h4, hf2,
      h5, hf3, hsig⟩ := parser_some_shape raw now sig hp
    obtain ⟨k1, k2, k3, k4, k5⟩ := allKeys_ok_true v hA
    refine ⟨v, vi, vs, ve, vt, vl, qe, qt, ql, hraw, k1, k2, k3, k4, k5,
      h1, h2, h3, hf1, h4, hf2, h5, hf3, ?_⟩
    exact congrArg some hsig

/-- C6: no parse, decode or validation failure propagates out of the
Extractor or the Update Classifier: whenever the modeled try-block body
raises (returns an error), the surrounding handler downgrades the call to
"no result" (`none`). -/
theorem c6_failures_downgraded (rawE rawU : Except String JValue) (now : Nat)
    (e e2 : String)
    (hE : intelligentSignalTry rawE now = Except.error e)
    (hU : parseSignalUpdateTry rawU = Except.error e2) :
    intelligentSignalParser rawE now = none ∧ parse_signal_update rawU = none := by
  constructor
  · unfold intelligentSignalParser
    rw [hE]
  · unfold parse_signal_update
    rw [hU]

/-- C6 witness: a wrongly-typed response (a bare number, on which `in`
raises `TypeError`) and a non-JSON-shaped response (a decode error) are both
downgraded to `none`. -/
theorem c6_failures_downgraded_witness :
    intelligentSignalParser (Except.ok (JValue.num 5)) 0 = none ∧
    parse_signal_update rawBad = none :=
  c6_failures_downgraded (Except.ok (JValue.num 5)) rawBad 0
    "TypeError: argument of type number is not iterable"
    "Expecting value: line 1 column 1 (char 0)" rfl rfl

/-- C10: every record the Extractor returns carries the uppercased `str()`
of the values the capability returned for instrument and side — so every
registry key created through the extraction path is an uppercased string —
and no check restricts side to BUY or SELL: a response with side "long" is
accepted and stored as "LONG". -/
theorem c10_uppercased_fields :
    (∀ raw now sig, intelligentSignalParser raw now = some sig →
      ∃ v vi vs, raw = Except.ok v ∧
        pyGetItem v "instrument" = Except.ok vi ∧
        pyGetItem v "side" = Except.ok vs ∧
        sig.instrument = pyUpper (pyStr vi) ∧
        sig.side = pyUpper (pyStr vs)) ∧
    (intelligentSignalParser rawLong 0 = some sigLong ∧ sigLong.side = "LONG") := by
  constructor
  · intro raw now sig h
    obtain ⟨v, vi, vs, ve, vt, vl, qe, qt, ql, hraw, hT, hA, h1, h2, h3, hf1, h4, hf2,
      h5, hf3, hsig⟩ := parser_some_shape raw now sig h
    refine ⟨v, vi, vs, hraw, h1, h2, ?_, ?_⟩
    · rw [hsig]
      rfl
    · rw [hsig]
      rfl
  · exact ⟨rfl, rfl⟩

/-- C10 witness: the uppercasing part applied to the concrete response. -/
theorem c10_uppercased_fields_witness :
    ∃ v vi vs, rawLong = Except.ok v ∧
      pyGetItem v "instrument" = Except.ok vi ∧
      pyGetItem v "side" = Except.ok vs ∧
      sigLong.instrument = pyUpper (pyStr vi) ∧
      sigLong.side = pyUpper (pyStr vs) :=
  c10_uppercased_fields.1 rawLong 0 sigLong (by rfl)

theorem scan_no_applicable (st : BotState) (msgLower : String)
    (classify : String → Option UpdateData) (now : Nat)
    (l : List (String × TradingSignal))
    (h : ∀ k s, (k, s) ∈ l → pyInStr (pyLower k) msgLower = true →
      ∀ upd, classify k = some upd → upd.action = some "other") :
    scanUpdate st msgLower classify now l = st := by
  induction l with
  | nil => rfl
  | cons p t ih =>
    obtain ⟨k, s⟩ := p
    have ht : ∀ k' s', (k', s') ∈ t → pyInStr (pyLower k') msgLower = true →
        ∀ upd, classify k' = some upd → upd.action = some "other" :=
      fun k' s' hm => h k' s' (List.mem_cons_of_mem _ hm)
    by_cases hm : pyInStr (pyLower k) msgLower = true
    · rcases hcl : classify k with _ | upd
      · simp only [scanUpdate, hm, if_true, hcl]
        exact ih ht
      · have hoth : upd.action = some "other" :=
          h k s (List.mem_cons_self _ _) hm upd hcl
        simp only [scanUpdate, hm, if_true, hcl, hoth, ne_eq, not_true_eq_false,
          if_false]
        exact ih ht
    · simp only [scanUpdate, hm, if_false]
      exact ih ht

theorem scan_first_applicable (st : BotState) (msgLower : String)
    (classify : String → Option UpdateData) (now : Nat)
    (pre : List (String × TradingSignal)) (k : String) (s : TradingSignal)
    (rest : List (String × TradingSignal)) (upd : UpdateData)
    (hskip : ∀ k' s', (k', s') ∈ pre → pyInStr (pyLower k') msgLower = true →
      ∀ upd', classify k' = some upd' → upd'.action = some "other")
    (hm : pyInStr (pyLower k) msgLower = true)
    (hcl : classify k = some upd) (hne : upd.action ≠ some "other") :
    scanUpdate st msgLower classify now (pre ++ (k, s) :: rest) =
      writeback (apply_signal_update st s upd now) k := by
  induction pre with
  | nil =>
    simp only [List.nil_append, scanUpdate, hm, if_true, hcl, ne_eq, hne,
      not_false_eq_true, if_true]
  | cons p t ih =>
    obtain ⟨k', s'⟩ := p
    have htail : ∀ ka sa, (ka, sa) ∈ t → pyInStr (pyLower ka) msgLower = true →
        ∀ upd', classify ka = some upd' → upd'.action = some "other" :=
      fun ka sa hmem => hskip ka sa (List.mem_cons_of_mem _ hmem)
    by_cases hm' : pyInStr (pyLower k') msgLower = true
    · rcases hcl' : classify k' with _ | upd'
      · simp only [List.cons_append, scanUpdate, hm', if_true, hcl']
        exact ih htail
      · have hoth : upd'.action = some "other" :=
          hskip k' s' (List.mem_cons_self _ _) hm' upd' hcl'
        simp only [List.cons_append, scanUpdate, hm', if_true, hcl', hoth, ne_eq,
          not_true_eq_false, if_false]
        exact ih htail
    · simp only [List.cons_append, scanUpdate, hm', if_false]
      exact ih htail

/-- Channel-path guard (bot.py lines 939-950): when the Extractor parses a
full signal whose instrument already has an active record,
`monitor_signal_channel` never overwrites that record with the candidate:
any record still registered under that instrument afterwards has the
existing record's instrument, side, entry and creation timestamp; keys stay
duplicate-free; and the registry is changed only along the
Update-Classifier/Reconciler path (left unchanged, closed-and-removed, or
replaced by the reconciler's mutation of the existing record — never by the
candidate).  This shows the re-registration guard is implemented on the
channel path; the private-chat path of `handle_message` lacks it. -/
theorem channel_no_overwrite (st : BotState) (msg : String) (rawE : Except String JValue)
    (classify : String → Option UpdateData) (now : Nat) (sig : TradingSignal)
    (hparse : intelligentSignalParser rawE now = some sig)
    (hactive : dictContains st.active_signals sig.instrument = true)
    (hnodup : (st.active_signals.map Prod.fst).Nodup)
    (hkeys : ∀ p ∈ st.active_signals, (p.2).instrument = p.1) :
    (∀ s', List.lookup sig.instrument
        (monitor_signal_channel st msg rawE classify now).active_signals = some s' →
      ∃ existing, List.lookup sig.instrument st.active_signals = some existing ∧
        s'.instrument = existing.instrument ∧ s'.side = existing.side ∧
        s'.entry = existing.entry ∧ s'.timestamp = existing.timestamp) ∧
    ((monitor_signal_channel st msg rawE classify now).active_signals.map Prod.fst).Nodup ∧
    ((monitor_signal_channel st msg rawE classify now).active_signals = st.active_signals ∨
     (monitor_signal_channel st msg rawE classify now).active_signals =
       dictErase st.active_signals sig.instrument ∨
     ∃ existing upd, List.lookup sig.instrument st.active_signals = some existing ∧
       classify sig.instrument = some upd ∧
       (monitor_signal_channel st msg rawE classify now).active_signals =
         dictSet st.active_signals sig.instrument
           (apply_signal_update st existing upd now).signal) := by
  obtain ⟨existing, hlook⟩ := dictContains_lookup st.active_signals sig.instrument hactive
  have hmem := lookup_mem st.active_signals sig.instrument existing hlook
  have hexinst : existing.instrument = sig.instrument := hkeys (sig.instrument, existing) hmem
  rcases hc : classify sig.instrument with _ | upd
  · have hres : monitor_signal_channel st msg rawE classify now = st := by
      simp [monitor_signal_channel, hparse, monitorDispatch, hactive, hc]
    rw [hres]
    refine ⟨fun s' hs' => ?_, hnodup, Or.inl rfl⟩
    rw [hlook] at hs'
    cases hs'
    exact ⟨existing, hlook, rfl, rfl, rfl, rfl⟩
  · by_cases ha : upd.action = some "other"
    · have hres : monitor_signal_channel st msg rawE classify now = st := by
        simp [monitor_signal_channel, hparse, monitorDispatch, hactive, hc, ha]
      rw [hres]
      refine ⟨fun s' hs' => ?_, hnodup, Or.inl rfl⟩
      rw [hlook] at hs'
      cases hs'
      exact ⟨existing, hlook, rfl, rfl, rfl, rfl⟩
    · have hres : monitor_signal_channel st msg rawE classify now =
          writeback (apply_signal_update st existing upd now) sig.instrument := by
        simp [monitor_signal_channel, hparse, monitorDispatch, hactive, hc, ha, hlook]
      obtain ⟨hfi, hfs, hfe, hft⟩ := apply_core_frame st existing upd now
      rcases apply_state_cases st existing upd now with hstate | hstate
      · have hwb : (writeback (apply_signal_update st existing upd now)
            sig.instrument).active_signals =
            dictSet st.active_signals sig.instrument
              (apply_signal_update st existing upd now).signal := by
          unfold writeback
          rw [hstate, if_pos hactive]
        rw [hres]
        refine ⟨fun s' hs' => ?_, ?_, Or.inr (Or.inr ⟨existing, upd, hlook, rfl, hwb⟩)⟩
        · rw [hwb, lookup_dictSet_self st.active_signals sig.instrument _ hactive] at hs'
          cases hs'
          exact ⟨existing, hlook, hfi, hfs, hfe, hft⟩
        · rw [hwb, mapfst_dictSet]
          exact hnodup
      · have he : (apply_signal_update st existing upd now).state.active_signals =
            dictErase st.active_signals sig.instrument := by
          rw [hstate.1, hexinst]
        have hwb : (writeback (apply_signal_update st existing upd now)
            sig.instrument).active_signals =
            dictErase st.active_signals sig.instrument := by
          unfold writeback
          rw [he, if_neg (by rw [dictContains_erase_self]; exact Bool.false_ne_true), he]
        rw [hres]
        refine ⟨fun s' hs' => ?_, ?_, Or.inr (Or.inl hwb)⟩
        · rw [hwb, lookup_erase_self] at hs'
          cases hs'
        · rw [hwb]
          exact nodup_erase_fst st.active_signals sig.instrument hnodup

/-- Concrete instance of the channel-path guard: a registry already holding
EURUSD and a second full EURUSD signal response. -/
theorem channel_no_overwrite_instance :
    (∀ s', List.lookup sig0.instrument
        (monitor_signal_channel st0 "second signal" rawEurusd classifyB 0).active_signals =
          some s' →
      ∃ existing, List.lookup sig0.instrument st0.active_signals = some existing ∧
        s'.instrument = existing.instrument ∧ s'.side = existing.side ∧
        s'.entry = existing.entry ∧ s'.timestamp = existing.timestamp) ∧
    ((monitor_signal_channel st0 "second signal" rawEurusd
        classifyB 0).active_signals.map Prod.fst).Nodup ∧
    ((monitor_signal_channel st0 "second signal" rawEurusd classifyB 0).active_signals =
        st0.active_signals ∨
     (monitor_signal_channel st0 "second signal" rawEurusd classifyB 0).active_signals =
       dictErase st0.active_signals sig0.instrument ∨
     ∃ existing upd, List.lookup sig0.instrument st0.active_signals = some existing ∧
       classifyB sig0.instrument = some upd ∧
       (monitor_signal_channel st0 "second signal" rawEurusd classifyB 0).active_signals =
         dictSet st0.active_signals sig0.instrument
           (apply_signal_update st0 existing upd 0).signal) :=
  channel_no_overwrite st0 "second signal" rawEurusd classifyB 0 sig0 rfl rfl
    (by decide) (by decide)

/-- C1: the claim also covers the private-chat path, and there it fails: at
the failing input — a private-chat message that parses as a full signal
naming EURUSD while an ACTIVE EURUSD record exists — `handle_message`
(bot.py line 752) executes the registration unconditionally, so the
registry entry becomes the candidate record: the existing record's side and
entry are overwritten and the message is never routed to the Update
Classifier, contradicting the claim's guarantee (which the channel path,
shown above, does implement). -/
theorem c1_private_chat_overwrite :
    dictContains st0.active_signals "EURUSD" = true ∧
    List.lookup "EURUSD" st0.active_signals = some sig0 ∧
    sig0.status = "ACTIVE" ∧
    intelligentSignalParser rawEurusdSell 1 = some sigSell ∧
    sigSell.instrument = "EURUSD" ∧
    List.lookup "EURUSD" (handle_message st0 rawEurusdSell 1).active_signals =
      some sigSell ∧
    sigSell.side ≠ sig0.side ∧
    sigSell.entry ≠ sig0.entry ∧
    (handle_message st0 rawEurusdSell 1).active_signals ≠ st0.active_signals := by
  refine ⟨rfl, rfl, rfl, rfl, rfl, rfl, by decide, by decide, by decide⟩

/-- C7 (amended): when the Extractor yields nothing, the dispatcher runs the
fallback scan over the active registry in order, matching instrument names
case-insensitively as substrings of the message; if no matching instrument
has a classification with action other than `other`, the registry is
unchanged; the update is applied (and the scan stops) at the first matching
instrument whose classification succeeds with an action different from
`other` — instruments matched earlier but classified as `other` (or not
classified) are skipped, so the scan can act on a later match rather than
stopping at the first. -/
theorem c7_fallback_scan (st : BotState) (msg : String) (rawE : Except String JValue)
    (classify : String → Option UpdateData) (now : Nat)
    (hparse : intelligentSignalParser rawE now = none) :
    (monitor_signal_channel st msg rawE classify now =
      scanUpdate st (pyLower msg) classify now st.active_signals) ∧
    ((∀ k s, (k, s) ∈ st.active_signals → pyInStr (pyLower k) (pyLower msg) = true →
        ∀ upd, classify k = some upd → upd.action = some "other") →
      monitor_signal_channel st msg rawE classify now = st) ∧
    (∀ pre k s rest upd, st.active_signals = pre ++ (k, s) :: rest →
      (∀ k' s', (k', s') ∈ pre → pyInStr (pyLower k') (pyLower msg) = true →
        ∀ upd', classify k' = some upd' → upd'.action = some "other") →
      pyInStr (pyLower k) (pyLower msg) = true →
      classify k = some upd → upd.action ≠ some "other" →
      monitor_signal_channel st msg rawE classify now =
        writeback (apply_signal_update st s upd now) k) := by
  have hm : monitor_signal_channel st msg rawE classify now =
      scanUpdate st (pyLower msg) classify now st.active_signals := by
    simp [monitor_signal_channel, hparse, monitorDispatch]
  refine ⟨hm, fun h => ?_, fun pre k s rest upd heq hskip hmm hcl hne => ?_⟩
  · rw [hm]
    exact scan_no_applicable st (pyLower msg) classify now st.active_signals h
  · rw [hm, heq]
    exact scan_first_applicable st (pyLower msg) classify now pre k s rest upd
      hskip hmm hcl hne

/-- C7 counterexample: extractor yields nothing, EURUSD is the first active
instrument and matches the message case-insensitively, its classification is
`other` — so by the claim nothing should be applied and the registry should
be unchanged — yet the registry changes: the scan continues and closes the
later match GBPUSD. -/
theorem c7_counterexample :
    intelligentSignalParser rawBad 0 = none ∧
    st2.active_signals.head? = some ("EURUSD", sig0) ∧
    pyInStr (pyLower "EURUSD") (pyLower msgBoth) = true ∧
    (∀ upd, classifySplit "EURUSD" = some upd → upd.action = some "other") ∧
    monitor_signal_channel st2 msgBoth rawBad classifySplit 0 ≠ st2 ∧
    dictContains (monitor_signal_channel st2 msgBoth rawBad
      classifySplit 0).active_signals "GBPUSD" = false := by
  refine ⟨rfl, rfl, rfl, ?_, by decide, by decide⟩
  intro upd h
  cases h
  rfl

/-- C7 witness: the amended theorem applied to the concrete scenario,
including the application at the later match GBPUSD after the first match
EURUSD is skipped as `other`. -/
theorem c7_fallback_scan_witness :
    (monitor_signal_channel st2 msgBoth rawBad classifySplit 0 =
      scanUpdate st2 (pyLower msgBoth) classifySplit 0 st2.active_signals) ∧
    (monitor_signal_channel st2 msgBoth rawBad classifySplit 0 =
      writeback (apply_signal_update st2 sigG updClose 0) "GBPUSD") := by
  constructor
  · exact (c7_fallback_scan st2 msgBoth rawBad classifySplit 0 rfl).1
  · refine (c7_fallback_scan st2 msgBoth rawBad classifySplit 0 rfl).2.2
      [("EURUSD", sig0)] "GBPUSD" sigG [] updClose rfl ?_ rfl rfl (by decide)
    intro k' s' hmem hin upd' hcl
    simp only [List.mem_singleton] at hmem
    cases hmem
    cases hcl
    rfl
